import Mathlib

/-!
Verification development for the Spout shared-texture discovery and transfer
subsystem (src/jockey/spout_native.rs, spout.rs, spout_ffi.rs).

The Rust code is embedded shallowly: system calls (registry reads, shared
memory mappings, D3D11 device calls) are abstracted as oracles packed in
environment structures, and each Rust function becomes a Lean function over
those oracles, preserving the source's control flow, field names and
constants. Raw byte reinterpretation of mapped memory is abstracted to the
record level: a mapped region is modelled as the sequence of records the code
reads out of it, and NUL-terminated name decoding is modelled as a `String`
field (the UTF-8 decode in the code fails only on non-UTF-8 bytes, which a
`String`-level model cannot produce).
-/

namespace Spout2Proof

/-- `SpoutSenderInfo` (spout_native.rs, scan_sender_list): one fixed-size slot
of the aggregate "SpoutSenderNames" table.  The `description` byte array is
never read by the code and is omitted. -/
structure SpoutSenderInfo where
  name : String
  width : Nat
  height : Nat
  handle : Nat
  format : Nat
  usage : Nat
  deriving Repr, DecidableEq

/-- `SpoutTexture` (spout_native.rs, read_individual_sender): the single
record at the head of a per-sender shared-memory region.  The trailing
padding is never read and is omitted. -/
structure SpoutTexture where
  width : Nat
  height : Nat
  format : Nat
  usage : Nat
  share_handle : Nat
  adapter_luid : Nat
  deriving Repr, DecidableEq

/-- The OS-level state the discovery path reads.
`registry path` models `RegOpenKeyExW` on `HKEY_CURRENT_USER\path` followed by
`RegQueryValueExW` per value name: `none` means the key fails to open, and the
returned partial map gives the DWORD values that can be read under it.
`senderLists region` models `OpenFileMappingW`/`MapViewOfFile` on an aggregate
sender-table region: `none` means the mapping fails to open, `some slots`
gives the fixed-size slots the scan reads.
`individual region` likewise models a per-sender region holding a single
`SpoutTexture` record. -/
structure Env where
  registry : String → Option (String → Option Nat)
  senderLists : String → Option (List SpoutSenderInfo)
  individual : String → Option SpoutTexture

/-- `read_registry_dword` (spout_native.rs:606): query one DWORD value under
an open key; `None` on failure. -/
def read_registry_dword (key : String → Option Nat) (value_name : String) :
    Option Nat :=
  key value_name

/-- `try_registry_path` (spout_native.rs:573): open the key read-only, then
read `Width`, `Height`, `Handle`; all three must succeed. -/
def try_registry_path (env : Env) (subkey : String) :
    Option (Nat × Nat × Nat) :=
  match env.registry subkey with
  | none => none
  | some hkey =>
    match read_registry_dword hkey "Width" with
    | none => none
    | some width =>
      match read_registry_dword hkey "Height" with
      | none => none
      | some height =>
        match read_registry_dword hkey "Handle" with
        | none => none
        | some handle => some (width, height, handle)

/-- The slot scan inside `scan_sender_list` (spout_native.rs:485-511): walk
the slots in order; a slot is accepted when its dimensions are in range, its
name equals the target and its handle is nonzero; otherwise continue. -/
def findSlot (target_sender : String) :
    List SpoutSenderInfo → Option (Nat × Nat × Nat)
  | [] => none
  | info :: rest =>
    if info.width > 0 ∧ info.width ≤ 8192 ∧ info.height > 0 ∧ info.height ≤ 8192 then
      if info.name = target_sender ∧ info.handle ≠ 0 then
        some (info.width, info.height, info.handle)
      else
        findSlot target_sender rest
    else
      findSlot target_sender rest

/-- `scan_sender_list` (spout_native.rs:447): open the named aggregate region,
interpret it as `max_senders = 64` fixed slots and scan them in order. -/
def scan_sender_list (env : Env) (memory_name target_sender : String) :
    Option (Nat × Nat × Nat) :=
  match env.senderLists memory_name with
  | none => none
  | some slots => findSlot target_sender (slots.take 64)

/-- `read_from_sender_names` (spout_native.rs:363): try the two aggregate
region names in order.  (`enumerate_all_senders` only logs and is omitted.) -/
def read_from_sender_names (env : Env) (sender_name : String) :
    Option (Nat × Nat × Nat) :=
  match scan_sender_list env "SpoutSenderNames" sender_name with
  | some result => some result
  | none => scan_sender_list env "Local\\SpoutSenderNames" sender_name

/-- `read_individual_sender` (spout_native.rs:519): open the named per-sender
region, read its leading `SpoutTexture` record and accept it when dimensions
are in range and the share handle is nonzero.  The `sender_name` argument is
only logged by the code and is unused here. -/
def read_individual_sender (env : Env) (memory_name : String)
    (_sender_name : String) : Option (Nat × Nat × Nat) :=
  match env.individual memory_name with
  | none => none
  | some info =>
    if info.width > 0 ∧ info.width ≤ 8192 ∧ info.height > 0 ∧
        info.height ≤ 8192 ∧ info.share_handle ≠ 0 then
      some (info.width, info.height, info.share_handle)
    else
      none

/-- `get_sender_from_memory_map` (spout_native.rs:336): the aggregate sender
list first, then the three per-sender region name conventions in order. -/
def get_sender_from_memory_map (env : Env) (sender_name : String) :
    Option (Nat × Nat × Nat) :=
  match read_from_sender_names env sender_name with
  | some result => some result
  | none =>
    match read_individual_sender env sender_name sender_name with
    | some result => some result
    | none =>
      match read_individual_sender env ("Local\\" ++ sender_name) sender_name with
      | some result => some result
      | none => read_individual_sender env ("Global\\" ++ sender_name) sender_name

/-- `get_sender_info` (spout_native.rs:312): try the two registry paths first,
then fall back to the shared-memory lookup. -/
def get_sender_info (env : Env) (sender_name : String) :
    Option (Nat × Nat × Nat) :=
  match try_registry_path env ("SOFTWARE\\Leading Edge\\Spout\\" ++ sender_name) with
  | some result => some result
  | none =>
    match try_registry_path env
        ("SOFTWARE\\WOW6432Node\\Leading Edge\\Spout\\" ++ sender_name) with
    | some result => some result
    | none => get_sender_from_memory_map env sender_name

/-- The mutable fields of `SpoutReceiver` (spout_native.rs:36).  The
D3D11 device/context pointers and the (never populated) cached shared-texture
pointer are modelled by presence flags; after a successful `new()` both the
device and the context are present. -/
structure SpoutReceiver where
  sender_name : String
  width : Nat
  height : Nat
  d3d_device : Bool
  d3d_context : Bool
  shared_texture : Bool
  shared_handle : Option Nat
  deriving Repr, DecidableEq

/-- `create_shared_texture` (spout_native.rs:634): a stub in the code, it
always returns `Ok(())` (the texture is opened on demand later). -/
def create_shared_texture : Except String Unit :=
  Except.ok ()

/-- `check_receiver` (spout_native.rs:132) as a pure state transformer.  The
Rust function mutates `self` and its two out-parameters and returns a `bool`;
here the result is the new state paired with `some (width, height)` when the
function returns `true` (the values written through the out-pointers) and
`none` when it returns `false`. -/
def check_receiver (env : Env) (st : SpoutReceiver) :
    SpoutReceiver × Option (Nat × Nat) :=
  if st.sender_name = "" then
    (st, none)
  else
    match get_sender_info env st.sender_name with
    | some (w, h, handle) =>
      if w ≠ st.width ∨ h ≠ st.height ∨ st.shared_handle = none then
        let st' := { st with width := w, height := h, shared_handle := some handle }
        match create_shared_texture with
        | Except.error _ => (st', none)
        | Except.ok _ => (st', some (st'.width, st'.height))
      else
        (st, some (st.width, st.height))
    | none => (st, none)

/-- The D3D11 calls `read_spout_texture` makes, as oracles.
`openSharedResource attempt handle` is the result of the `attempt`-th
`OpenSharedResource` call on this poll with the given handle value (the code
passes the same numeric value both times: `shared_handle as HANDLE` and
`shared_handle as *mut c_void as HANDLE` are the same pointer).
`createTexture2D` and `mapResource` are the results of `CreateTexture2D` for
the staging texture and of `Map`; `CopyResource` and `Unmap` cannot fail. -/
structure GpuEnv where
  openSharedResource : Nat → Nat → Bool
  createTexture2D : Bool
  mapResource : Bool

/-- `read_spout_texture` (spout_native.rs:194) at success/failure granularity.
Besides the returned `bool`, the model records the list of handle values
passed to `OpenSharedResource`, in call order, so retry behaviour is
observable.  The pixel-row copy itself carries no control flow and is not
modelled; `self` is `&self` in the code, so there is no state change. -/
def read_spout_texture (genv : GpuEnv) (st : SpoutReceiver) :
    Bool × List Nat :=
  if st.d3d_device ∧ st.d3d_context then
    match st.shared_handle with
    | some shared_handle =>
      if shared_handle = 0 then
        (false, [])
      else
        if genv.openSharedResource 0 shared_handle then
          if genv.createTexture2D then
            if genv.mapResource then (true, [shared_handle])
            else (false, [shared_handle])
          else (false, [shared_handle])
        else
          if genv.openSharedResource 1 shared_handle then
            if genv.createTexture2D then
              if genv.mapResource then (true, [shared_handle, shared_handle])
              else (false, [shared_handle, shared_handle])
            else (false, [shared_handle, shared_handle])
          else (false, [shared_handle, shared_handle])
    | none => (false, [])
  else
    (false, [])

/-- `receive_texture` (spout_native.rs:165): size guard, resource guard,
handle guard, then the shared-texture read. -/
def receive_texture (genv : GpuEnv) (st : SpoutReceiver) (width height : Nat) :
    Bool :=
  if width ≠ st.width ∨ height ≠ st.height then
    false
  else if st.d3d_device ∧ st.d3d_context then
    match st.shared_handle with
    | some h => if h ≠ 0 then (read_spout_texture genv st).1 else false
    | none => false
  else
    false

/-- `SpoutReceiverData` (spout.rs:20): the receiver plus the dimensions last
written after a successful texture receive. -/
structure SpoutReceiverData where
  receiver : SpoutReceiver
  width : Nat
  height : Nat
  deriving Repr, DecidableEq

/-- `Spout::receive_texture` (spout.rs:143) as a pure step.  The scratch
`buffer` is tracked by its length (its bytes carry no control flow).  The
result mirrors `Result<Option<DynamicImage>, String>`: `Except.ok (some
(w, h))` is a produced frame with its dimensions, `Except.ok none` is "no
frame this poll", and `Except.error` is the branch that makes the worker
thread break out of its loop. -/
def spout_receive_texture (env : Env) (genv : GpuEnv)
    (rd : SpoutReceiverData) (buffer : Nat) :
    SpoutReceiverData × Nat × Except String (Option (Nat × Nat)) :=
  let checked := check_receiver env rd.receiver
  let rd := { rd with receiver := checked.1 }
  match checked.2 with
  | none => (rd, buffer, Except.ok none)
  | some (width, height) =>
    if width = 0 ∨ height = 0 then
      (rd, buffer, Except.ok none)
    else
      let required_size := width * height * 4
      let buffer := if buffer ≠ required_size then required_size else buffer
      if receive_texture genv rd.receiver width height then
        let rd := { rd with width := width, height := height }
        if buffer = width * height * 4 then
          (rd, buffer, Except.ok (some (width, height)))
        else
          (rd, buffer, Except.error "Failed to create image buffer")
      else
        (rd, buffer, Except.ok none)

/-- The state of the `Spout` connection manager (spout.rs:13).  The two
`HashMap`s are modelled as lists of keys in insertion order (the mapped
`Arc` payloads carry no data the claims depend on); `spawned` records, in
order, the names for which a worker thread has been spawned. -/
structure SpoutManager where
  receivers : List String
  videos : List String
  spawned : List String
  disabled : Bool
  deriving Repr, DecidableEq

/-- `Spout::new` (spout.rs:27) on Windows (`disabled = !cfg!(windows)`). -/
def Spout.new : SpoutManager :=
  { receivers := [], videos := [], spawned := [], disabled := false }

/-- Whether `SpoutReceiver::new()` succeeds (COM + D3D11 device creation). -/
structure MgrEnv where
  deviceOk : Bool

/-- `Spout::create_receiver` (spout.rs:72): build a receiver, register the
receiver cell and the video cell under the name, spawn the worker. -/
def create_receiver (menv : MgrEnv) (st : SpoutManager) (source_name : String) :
    Except String SpoutManager :=
  if menv.deviceOk then
    Except.ok
      { st with
        receivers := st.receivers ++ [source_name]
        videos := st.videos ++ [source_name]
        spawned := st.spawned ++ [source_name] }
  else
    Except.error "Failed to create Spout receiver"

/-- The `for source_name in requested` loop of `Spout::connect`
(spout.rs:50): skip names already present, otherwise create; the first
creation failure aborts the whole call with an error. -/
def connectLoop (menv : MgrEnv) :
    SpoutManager → List String → Except String SpoutManager
  | st, [] => Except.ok st
  | st, source_name :: rest =>
    if source_name ∈ st.receivers then
      connectLoop menv st rest
    else
      match create_receiver menv st source_name with
      | Except.ok st' => connectLoop menv st' rest
      | Except.error e =>
        Except.error ("Failed to connect to any Spout sources: " ++ e)

/-- `Spout::connect` (spout.rs:41): early `Ok` when disabled or the request
is empty, else the per-name loop. -/
def connect (menv : MgrEnv) (st : SpoutManager) (requested : List String) :
    Except String SpoutManager :=
  if st.disabled ∨ requested.length = 0 then
    Except.ok st
  else
    connectLoop menv st requested

/-- `Spout::cleanup` (spout.rs:208): drop every manager entry.  The spawned
threads are not joined; they observe the drop and exit on their own. -/
def cleanup (st : SpoutManager) : SpoutManager :=
  { st with receivers := [], videos := [] }

/-- What `impl Drop for SpoutReceiver` (spout_native.rs:64) releases: the
cached shared texture, the context and the device, each if present
(`CoUninitialize` is unconditional and carries no resource). -/
structure ReleaseLog where
  texture : Bool
  context : Bool
  device : Bool
  deriving Repr, DecidableEq

/-- `SpoutReceiver::drop` (spout_native.rs:64): release each held COM
pointer. -/
def SpoutReceiver.drop (st : SpoutReceiver) : ReleaseLog :=
  { texture := st.shared_texture
    context := st.d3d_context
    device := st.d3d_device }

/-- The reference-counting state around one worker thread (spout.rs:85-138).
`managerEntry`: the manager still holds its `receiver_data.clone()` and
`video.clone()` in its two maps (cleanup drops both together).
`workerOwnsReceiver`: the closure's own strong `receiver_data` `Arc`, moved
into the thread at spawn and dropped when the thread returns.
`recv` is the receiver the `SpoutReceiverData` wraps, and `released` is the
`ReleaseLog` of its `Drop` once the last strong reference is gone. -/
structure WorkerSys where
  managerEntry : Bool
  workerAlive : Bool
  workerOwnsReceiver : Bool
  recv : SpoutReceiver
  released : Option ReleaseLog
  deriving Repr, DecidableEq

/-- Strong count of the `receiver_data` `Arc`, as `weak_receiver.strong_count()`
observes it at the loop head: the manager's clone plus the worker closure's
own strong reference. -/
def receiverStrong (s : WorkerSys) : Nat :=
  (if s.managerEntry then 1 else 0) + (if s.workerOwnsReceiver then 1 else 0)

/-- Strong count of the `video` `Arc`: only the manager's clone (the closure
captures just the weak handle; the local strong `video` dies when
`create_receiver` returns). -/
def videoStrong (s : WorkerSys) : Nat :=
  if s.managerEntry then 1 else 0

/-- The worker returning from its closure (the `break` paths of
spout.rs:104-138): the thread ends, its strong `receiver_data` reference is
dropped, and if that was the last strong reference the `SpoutReceiverData`
inside — hence the `SpoutReceiver` — is dropped, running
`SpoutReceiver::drop`. -/
def workerExit (s : WorkerSys) : WorkerSys :=
  let s' := { s with workerAlive := false, workerOwnsReceiver := false }
  if receiverStrong s' = 0 then
    { s' with released := some (SpoutReceiver.drop s.recv) }
  else
    s'

/-- One iteration of the worker loop (spout.rs:107-135) at the granularity of
its liveness checks.  The loop head breaks when either weak handle has strong
count zero; the subsequent `upgrade()` pair breaks on the same condition; a
surviving iteration polls and writes, which changes neither reference count
(the upgraded strong references are dropped before the sleep). -/
def workerStep (s : WorkerSys) : WorkerSys :=
  if ¬s.workerAlive then
    s
  else if receiverStrong s = 0 ∨ videoStrong s = 0 then
    workerExit s
  else
    s

/-- The vtable calls `SpoutLibrarySender` makes on the Spout library
(spout_ffi.rs:29), in the order they are issued. -/
inductive VCall where
  | releaseSender
  | setSenderName
  | sendTexture
  deriving Repr, DecidableEq

/-- The mutable fields of `SpoutLibrarySender` (spout_ffi.rs:39); the opaque
library handle is modelled by its presence. -/
structure SpoutLibrarySender where
  width : Nat
  height : Nat
  initialized : Bool
  spout_handle : Bool
  deriving Repr, DecidableEq

/-- `SpoutLibrarySender::init` (spout_ffi.rs:77) as a pure step, returning
the new state and the vtable calls issued, in order: no-op when already
initialized at the requested size; release first when initialized at a
different size; then set the sender name and record the new size. -/
def SpoutLibrarySender.init (st : SpoutLibrarySender) (width height : Nat) :
    Except String (SpoutLibrarySender × List VCall) :=
  if st.initialized ∧ st.width = width ∧ st.height = height then
    Except.ok (st, [])
  else if ¬st.spout_handle then
    Except.error "No Spout handle"
  else
    let staged :=
      if st.initialized ∧ (st.width ≠ width ∨ st.height ≠ height) then
        ({ st with initialized := false }, [VCall.releaseSender])
      else
        (st, ([] : List VCall))
    Except.ok
      ({ staged.1 with width := width, height := height, initialized := true },
        staged.2 ++ [VCall.setSenderName])

/-- Whether the library's `SendTexture` call reports success. -/
structure SendEnv where
  sendOk : Bool

/-- `SpoutLibrarySender::send_texture` (spout_ffi.rs:110): re-init when not
initialized or the size changed, then issue the `SendTexture` vtable call. -/
def SpoutLibrarySender.send_texture (senv : SendEnv) (st : SpoutLibrarySender)
    (_texture_id width height : Nat) :
    Except String (SpoutLibrarySender × List VCall) :=
  let initRes :=
    if ¬st.initialized ∨ st.width ≠ width ∨ st.height ≠ height then
      SpoutLibrarySender.init st width height
    else
      Except.ok (st, [])
  match initRes with
  | Except.error e => Except.error e
  | Except.ok (st, calls) =>
    if ¬st.spout_handle then
      Except.error "No Spout handle"
    else if senv.sendOk then
      Except.ok (st, calls ++ [VCall.sendTexture])
    else
      Except.error "Failed to send texture to Spout"

/-! ## Spec-side definitions and helper lemmas -/

/-- The spec's validity invariant (§3, SenderRecord): a record is valid only
if `0 < width ≤ MAX_DIM` and `0 < height ≤ MAX_DIM` and `handle ≠ 0`. -/
def specValidRecord (maxDim : Nat) (s : SpoutSenderInfo) : Bool :=
  decide (0 < s.width) && decide (s.width ≤ maxDim) &&
  decide (0 < s.height) && decide (s.height ≤ maxDim) &&
  decide (s.handle ≠ 0)

/-- The spec's strategy-chain abstraction (§9, design notes): try an ordered
list of lookup results and return the first hit. -/
def lookupChain : List (Option (Nat × Nat × Nat)) → Option (Nat × Nat × Nat)
  | [] => none
  | s :: rest =>
    match s with
    | some r => some r
    | none => lookupChain rest

/-- The acceptance predicate of the spec (§8, first testable property): the
validity invariant at `MAX_DIM = 8192` together with exact name equality. -/
def specAccept (target : String) (s : SpoutSenderInfo) : Bool :=
  specValidRecord 8192 s && s.name == target

/-- The code's slot scan is exactly "first slot that is valid and matches":
`findSlot` agrees with `List.find?` over the spec's acceptance predicate. -/
theorem findSlot_eq_find (target : String) (slots : List SpoutSenderInfo) :
    findSlot target slots =
      (slots.find? (specAccept target)).map
        (fun s => (s.width, s.height, s.handle)) := by
  induction slots with
  | nil => rfl
  | cons s rest ih =>
    by_cases h1 : s.width > 0 ∧ s.width ≤ 8192 ∧ s.height > 0 ∧ s.height ≤ 8192
    · by_cases h2 : s.name = target ∧ s.handle ≠ 0
      · have hp : specAccept target s = true := by
          simp [specAccept, specValidRecord, h1.1, h1.2.1, h1.2.2.1, h1.2.2.2,
            h2.1, h2.2]
        rw [List.find?_cons_of_pos _ hp]
        simp [findSlot, h1, h2]
      · have hp : specAccept target s = false := by
          by_cases hn : s.name = target
          · have hh : s.handle = 0 := by
              by_contra hc
              exact h2 ⟨hn, hc⟩
            simp [specAccept, specValidRecord, hh]
          · simp [specAccept, specValidRecord, hn]
        rw [List.find?_cons_of_neg _ (by simp [hp])]
        simp [findSlot, h1, h2, ih]
    · have hp : specAccept target s = false := by
        rcases Decidable.not_and_iff_or_not.mp h1 with h | h
        · simp [specAccept, specValidRecord, Nat.le_zero.mp (Nat.not_lt.mp h)]
        · rcases Decidable.not_and_iff_or_not.mp h with h | h
          · simp [specAccept, specValidRecord, h]
          · rcases Decidable.not_and_iff_or_not.mp h with h | h
            · simp [specAccept, specValidRecord, Nat.le_zero.mp (Nat.not_lt.mp h)]
            · simp [specAccept, specValidRecord, h]
      rw [List.find?_cons_of_neg _ (by simp [hp])]
      simp [findSlot, h1, ih]

/-! ## Claim C3 -/

/-- C3: for every registry-style sender table, the lookup returns the
`(width, height, handle)` of the first slot whose name matches the requested
name exactly and that satisfies the validity invariant `0 < width ≤ 8192`,
`0 < height ≤ 8192`, `handle ≠ 0`; every slot failing the invariant is
skipped, and with no valid matching slot the lookup reports no match —
`scan_sender_list` is `List.find?` of the spec's acceptance predicate over
the 64 scanned slots. -/
theorem scan_sender_list_first_valid_match (env : Env)
    (memory_name target : String) (slots : List SpoutSenderInfo)
    (hmap : env.senderLists memory_name = some slots) :
    scan_sender_list env memory_name target =
      ((slots.take 64).find? (specAccept target)).map
        (fun s => (s.width, s.height, s.handle)) := by
  unfold scan_sender_list
  rw [hmap]
  exact findSlot_eq_find target (slots.take 64)

/-- A fixture table: an invalid-width slot and a zero-handle slot for "Cam1",
an unrelated sender, then a valid "Cam1" slot at 640x480 with handle
0xABCD = 43981. -/
def slotsW : List SpoutSenderInfo :=
  [{ name := "Cam1", width := 0, height := 480, handle := 5, format := 0, usage := 0 },
   { name := "Cam1", width := 640, height := 480, handle := 0, format := 0, usage := 0 },
   { name := "Other", width := 640, height := 480, handle := 7, format := 0, usage := 0 },
   { name := "Cam1", width := 640, height := 480, handle := 43981, format := 0, usage := 0 }]

/-- An environment whose aggregate table is `slotsW`. -/
def envW : Env :=
  { registry := fun _ => none
    senderLists := fun m => if m = "SpoutSenderNames" then some slotsW else none
    individual := fun _ => none }

/-- C3 witness: on the fixture, lookup of "Cam1" skips the invalid slots and
returns the valid triple, and lookup of "Cam2" reports no match. -/
theorem scan_sender_list_first_valid_match_witness :
    envW.senderLists "SpoutSenderNames" = some slotsW ∧
    scan_sender_list envW "SpoutSenderNames" "Cam1" = some (640, 480, 43981) ∧
    scan_sender_list envW "SpoutSenderNames" "Cam2" = none := by
  refine ⟨rfl, ?_, ?_⟩
  · rw [scan_sender_list_first_valid_match envW "SpoutSenderNames" "Cam1" slotsW rfl]
    decide
  · rw [scan_sender_list_first_valid_match envW "SpoutSenderNames" "Cam2" slotsW rfl]
    decide

/-! ## Claim C1 -/

/-- An environment where the registry holds `(1, 1, 1)` for "Cam" while the
aggregate shared-memory table holds `(2, 2, 2)` for it. -/
def envC1 : Env :=
  { registry := fun path =>
      if path = "SOFTWARE\\Leading Edge\\Spout\\Cam" then
        some (fun v =>
          if v = "Width" then some 1
          else if v = "Height" then some 1
          else if v = "Handle" then some 1
          else none)
      else none
    senderLists := fun m =>
      if m = "SpoutSenderNames" then
        some [{ name := "Cam", width := 2, height := 2, handle := 2,
                format := 0, usage := 0 }]
      else none
    individual := fun _ => none }

/-- C1 counterexample: the shared-memory lookup yields `(2, 2, 2)` for "Cam",
yet `get_sender_info` returns the registry's `(1, 1, 1)` — so the registry is
consulted first, not only after the shared-memory lookup yields nothing. -/
theorem get_sender_info_not_shm_first :
    get_sender_from_memory_map envC1 "Cam" = some (2, 2, 2) ∧
    get_sender_info envC1 "Cam" = some (1, 1, 1) := by
  constructor <;> decide

/-- C1 amended: `get_sender_info` is the ordered strategy chain with the two
persistent registry key paths first, and the shared-memory strategies
(aggregate sender-names tables, then the per-sender individually-named
regions) tried only after the registry yields nothing. -/
theorem get_sender_info_chain (env : Env) (name : String) :
    get_sender_info env name =
      lookupChain
        [try_registry_path env ("SOFTWARE\\Leading Edge\\Spout\\" ++ name),
         try_registry_path env ("SOFTWARE\\WOW6432Node\\Leading Edge\\Spout\\" ++ name),
         scan_sender_list env "SpoutSenderNames" name,
         scan_sender_list env "Local\\SpoutSenderNames" name,
         read_individual_sender env name name,
         read_individual_sender env ("Local\\" ++ name) name,
         read_individual_sender env ("Global\\" ++ name) name] := by
  simp only [get_sender_info, get_sender_from_memory_map, read_from_sender_names]
  cases try_registry_path env ("SOFTWARE\\Leading Edge\\Spout\\" ++ name) <;>
  cases try_registry_path env ("SOFTWARE\\WOW6432Node\\Leading Edge\\Spout\\" ++ name) <;>
  cases scan_sender_list env "SpoutSenderNames" name <;>
  cases scan_sender_list env "Local\\SpoutSenderNames" name <;>
  cases read_individual_sender env name name <;>
  cases read_individual_sender env ("Local\\" ++ name) name <;>
  cases read_individual_sender env ("Global\\" ++ name) name <;>
  simp [lookupChain]

/-! ## Claim C2 -/

/-- An environment where "Cam" is published at 640x480 with handle 2. -/
def envC2 : Env :=
  { registry := fun _ => none
    senderLists := fun m =>
      if m = "SpoutSenderNames" then
        some [{ name := "Cam", width := 640, height := 480, handle := 2,
                format := 0, usage := 0 }]
      else none
    individual := fun _ => none }

/-- A receiver already tracking "Cam" at 640x480 with handle 1. -/
def stC2 : SpoutReceiver :=
  { sender_name := "Cam", width := 640, height := 480,
    d3d_device := true, d3d_context := true, shared_texture := false,
    shared_handle := some 1 }

/-- C2 counterexample: discovery returns `(640, 480, 2)`, which differs from
the tracked triple `(640, 480, some 1)` in the handle component, yet
`check_receiver` leaves the state unchanged — the newly discovered handle 2
does not become the tracked handle. -/
theorem check_receiver_keeps_stale_handle :
    get_sender_info envC2 "Cam" = some (640, 480, 2) ∧
    (check_receiver envC2 stC2).1 = stC2 ∧
    stC2.shared_handle = some 1 := by
  refine ⟨by decide, by decide, rfl⟩

/-- C2 amended: on a poll where discovery returns `(w, h, handle)`, the
connection re-tracks with the new triple exactly when the width or the height
differs from the tracked size or no handle is tracked yet; a resend with a
new handle at an unchanged size leaves the tracked state (handle included)
unchanged. -/
theorem check_receiver_transition (env : Env) (st : SpoutReceiver)
    (w h handle : Nat)
    (hname : ¬st.sender_name = "")
    (hfound : get_sender_info env st.sender_name = some (w, h, handle)) :
    check_receiver env st =
      if w ≠ st.width ∨ h ≠ st.height ∨ st.shared_handle = none then
        ({ st with width := w, height := h, shared_handle := some handle },
          some (w, h))
      else
        (st, some (st.width, st.height)) := by
  simp only [check_receiver, hname, if_false, hfound, create_shared_texture]

/-- A receiver for "Cam" that has not yet tracked any sender. -/
def stC2w : SpoutReceiver :=
  { sender_name := "Cam", width := 0, height := 0,
    d3d_device := true, d3d_context := true, shared_texture := false,
    shared_handle := none }

/-- C2 witness: first sighting of "Cam" at 640x480 with handle 2 transitions
the untracked receiver to tracking exactly that triple. -/
theorem check_receiver_transition_witness :
    ¬stC2w.sender_name = "" ∧
    get_sender_info envC2 stC2w.sender_name = some (640, 480, 2) ∧
    check_receiver envC2 stC2w =
      ({ stC2w with width := 640, height := 480, shared_handle := some 2 },
        some (640, 480)) :=
  ⟨by decide, by decide,
    (check_receiver_transition envC2 stC2w 640 480 2 (by decide) (by decide)).trans
      (by decide)⟩

/-! ## Claim C5 -/

/-- C5 amended: on a poll where neither discovery path finds a record, the
poll result is "no frame" and the connection state is left entirely
unchanged — in particular a previously tracked triple stays tracked rather
than being reset. -/
theorem check_receiver_miss_no_frame (env : Env) (st : SpoutReceiver)
    (hmiss : get_sender_info env st.sender_name = none) :
    check_receiver env st = (st, none) := by
  unfold check_receiver
  by_cases hname : st.sender_name = ""
  · rw [if_pos hname]
  · rw [if_neg hname, hmiss]

/-- An environment with no registry keys, no shared-memory tables and no
per-sender regions. -/
def envC5 : Env :=
  { registry := fun _ => none, senderLists := fun _ => none,
    individual := fun _ => none }

/-- A receiver currently tracking "Cam" at 640x480 with handle 5. -/
def stC5 : SpoutReceiver :=
  { sender_name := "Cam", width := 640, height := 480,
    d3d_device := true, d3d_context := true, shared_texture := false,
    shared_handle := some 5 }

/-- C5 counterexample: both discovery paths miss and the poll reports no
frame, but the connection does not return to an Idle "no tracked sender"
state — the tracked handle is still `some 5` after the poll. -/
theorem check_receiver_miss_keeps_tracking :
    get_sender_info envC5 "Cam" = none ∧
    (check_receiver envC5 stC5).2 = none ∧
    (check_receiver envC5 stC5).1.shared_handle = some 5 := by
  refine ⟨by decide, by decide, by decide⟩

/-- C5 witness: on the empty environment, a poll of the tracking receiver
returns "no frame" with the state unchanged. -/
theorem check_receiver_miss_no_frame_witness :
    get_sender_info envC5 stC5.sender_name = none ∧
    check_receiver envC5 stC5 = (stC5, none) :=
  ⟨by decide, check_receiver_miss_no_frame envC5 stC5 (by decide)⟩

/-! ## Claim C8 -/

/-- C8: opening the shared texture tries the primary handle interpretation,
and on failure retries exactly once with the alternate interpretation of the
same numeric value; there is no attempt beyond those two, and if both fail
the read gives up with failure. -/
theorem read_spout_texture_retry_once (genv : GpuEnv) (st : SpoutReceiver)
    (h : Nat)
    (hdev : st.d3d_device = true) (hctx : st.d3d_context = true)
    (hsh : st.shared_handle = some h) (hnz : h ≠ 0) :
    (genv.openSharedResource 0 h = true →
      (read_spout_texture genv st).2 = [h]) ∧
    (genv.openSharedResource 0 h = false →
      (read_spout_texture genv st).2 = [h, h] ∧
      (genv.openSharedResource 1 h = false →
        read_spout_texture genv st = (false, [h, h]))) := by
  refine ⟨fun hopen => ?_, fun hopen => ⟨?_, fun hopen2 => ?_⟩⟩
  · cases hc : genv.createTexture2D <;> cases hm : genv.mapResource <;>
      simp [read_spout_texture, hdev, hctx, hsh, hnz, hopen, hc, hm]
  · cases ho2 : genv.openSharedResource 1 h <;>
      cases hc : genv.createTexture2D <;> cases hm : genv.mapResource <;>
        simp [read_spout_texture, hdev, hctx, hsh, hnz, hopen, ho2, hc, hm]
  · simp [read_spout_texture, hdev, hctx, hsh, hnz, hopen, hopen2]

/-- A GPU environment where every `OpenSharedResource` call fails. -/
def genvFail : GpuEnv :=
  { openSharedResource := fun _ _ => false, createTexture2D := true,
    mapResource := true }

/-- C8 witness: on the all-failing GPU environment and the receiver tracking
handle 5, the read makes exactly the two open attempts with the same value
and gives up with failure. -/
theorem read_spout_texture_retry_once_witness :
    stC5.d3d_device = true ∧ stC5.d3d_context = true ∧
    stC5.shared_handle = some 5 ∧ 5 ≠ 0 ∧
    ((genvFail.openSharedResource 0 5 = true →
        (read_spout_texture genvFail stC5).2 = [5]) ∧
     (genvFail.openSharedResource 0 5 = false →
        (read_spout_texture genvFail stC5).2 = [5, 5] ∧
        (genvFail.openSharedResource 1 5 = false →
          read_spout_texture genvFail stC5 = (false, [5, 5])))) :=
  ⟨rfl, rfl, rfl, by decide,
    read_spout_texture_retry_once genvFail stC5 5 rfl rfl rfl (by decide)⟩

/-! ## Claim C4 -/

/-- The buffer-resize step of `Spout::receive_texture` always leaves the
buffer at the required size. -/
theorem resize_buffer (b r : Nat) : (if b ≠ r then r else b) = r := by
  by_cases hb : b ≠ r
  · rw [if_pos hb]
  · rw [if_neg hb, Decidable.not_not.mp hb]

/-- When discovery returns exactly the triple already tracked,
`check_receiver` leaves the state unchanged and reports the tracked size. -/
theorem check_receiver_same_triple (env : Env) (st : SpoutReceiver)
    (w h hd : Nat)
    (hname : ¬st.sender_name = "")
    (hfound : get_sender_info env st.sender_name = some (w, h, hd))
    (hw : st.width = w) (hh : st.height = h)
    (hsh : st.shared_handle = some hd) :
    check_receiver env st = (st, some (w, h)) := by
  simp [check_receiver, hname, hfound, hw, hh, hsh]

/-- C4: when the GPU open/copy step of a poll fails, the worker's receive
step reports `Ok(None)` — not the `Err` that would end the worker thread —
and the tracked triple is unchanged; the next poll with a recovered GPU
retries the same triple and produces a frame at the tracked dimensions. -/
theorem tracking_survives_gpu_failure (env : Env) (genv genv2 : GpuEnv)
    (rd : SpoutReceiverData) (buffer w h hd : Nat)
    (hname : ¬rd.receiver.sender_name = "")
    (hfound : get_sender_info env rd.receiver.sender_name = some (w, h, hd))
    (hw : rd.receiver.width = w) (hh : rd.receiver.height = h)
    (hsh : rd.receiver.shared_handle = some hd)
    (hw0 : w ≠ 0) (hh0 : h ≠ 0) (hd0 : hd ≠ 0)
    (hdev : rd.receiver.d3d_device = true)
    (hctx : rd.receiver.d3d_context = true)
    (hfail0 : genv.openSharedResource 0 hd = false)
    (hfail1 : genv.openSharedResource 1 hd = false)
    (hok0 : genv2.openSharedResource 0 hd = true)
    (hok1 : genv2.createTexture2D = true) (hok2 : genv2.mapResource = true) :
    (spout_receive_texture env genv rd buffer).2.2 = Except.ok none ∧
    (spout_receive_texture env genv rd buffer).1.receiver = rd.receiver ∧
    (spout_receive_texture env genv2
        (spout_receive_texture env genv rd buffer).1
        (spout_receive_texture env genv rd buffer).2.1).2.2 =
      Except.ok (some (w, h)) := by
  have hcheck : check_receiver env rd.receiver = (rd.receiver, some (w, h)) :=
    check_receiver_same_triple env rd.receiver w h hd hname hfound hw hh hsh
  have hrecv_fail : receive_texture genv rd.receiver w h = false := by
    simp [receive_texture, read_spout_texture, hw, hh, hdev, hctx, hsh, hd0,
      hfail0, hfail1]
  have hrecv_ok : receive_texture genv2 rd.receiver w h = true := by
    simp [receive_texture, read_spout_texture, hw, hh, hdev, hctx, hsh, hd0,
      hok0, hok1, hok2]
  have hstep1 : spout_receive_texture env genv rd buffer =
      (rd, w * h * 4, Except.ok none) := by
    simp [spout_receive_texture, hcheck, hw0, hh0, hrecv_fail, resize_buffer]
  have hstep2 : (spout_receive_texture env genv2 rd (w * h * 4)).2.2 =
      Except.ok (some (w, h)) := by
    simp [spout_receive_texture, hcheck, hw0, hh0, hrecv_ok, resize_buffer]
  rw [hstep1]
  exact ⟨rfl, rfl, hstep2⟩

/-- A receiver tracking exactly the record `envC2` publishes for "Cam". -/
def stC4 : SpoutReceiver :=
  { sender_name := "Cam", width := 640, height := 480,
    d3d_device := true, d3d_context := true, shared_texture := false,
    shared_handle := some 2 }

/-- The worker-side wrapper state around `stC4`. -/
def rdC4 : SpoutReceiverData := { receiver := stC4, width := 1, height := 1 }

/-- A GPU environment where every call succeeds. -/
def genvOk : GpuEnv :=
  { openSharedResource := fun _ _ => true, createTexture2D := true,
    mapResource := true }

/-- C4 witness: with "Cam" published at 640x480 and every GPU open failing,
the poll yields `Ok(None)` with the tracked triple intact, and the next poll
against a recovered GPU yields a 640x480 frame. -/
theorem tracking_survives_gpu_failure_witness :
    (¬rdC4.receiver.sender_name = "") ∧
    get_sender_info envC2 rdC4.receiver.sender_name = some (640, 480, 2) ∧
    rdC4.receiver.width = 640 ∧ rdC4.receiver.height = 480 ∧
    rdC4.receiver.shared_handle = some 2 ∧
    genvFail.openSharedResource 0 2 = false ∧
    genvFail.openSharedResource 1 2 = false ∧
    genvOk.openSharedResource 0 2 = true ∧
    ((spout_receive_texture envC2 genvFail rdC4 0).2.2 = Except.ok none ∧
     (spout_receive_texture envC2 genvFail rdC4 0).1.receiver = rdC4.receiver ∧
     (spout_receive_texture envC2 genvOk
        (spout_receive_texture envC2 genvFail rdC4 0).1
        (spout_receive_texture envC2 genvFail rdC4 0).2.1).2.2 =
       Except.ok (some (640, 480))) :=
  ⟨by decide, by decide, rfl, rfl, rfl, rfl, rfl, rfl,
    tracking_survives_gpu_failure envC2 genvFail genvOk rdC4 0 640 480 2
      (by decide) (by decide) rfl rfl rfl (by decide) (by decide) (by decide)
      rfl rfl rfl rfl rfl rfl rfl⟩

/-! ## Claim C6 -/

/-- The manager table invariant: unique keys, and the video map and the
spawned-worker list track the receiver map one-to-one. -/
def MgrInv (st : SpoutManager) : Prop :=
  st.receivers.Nodup ∧ st.videos = st.receivers ∧ st.spawned = st.receivers

instance (st : SpoutManager) : Decidable (MgrInv st) := by
  unfold MgrInv
  infer_instance

/-- A connect loop over names that are all already registered changes
nothing. -/
theorem connectLoop_all_mem (menv : MgrEnv) (st : SpoutManager) :
    ∀ names : List String, (∀ n ∈ names, n ∈ st.receivers) →
      connectLoop menv st names = Except.ok st := by
  intro names
  induction names with
  | nil => intro _; rfl
  | cons n rest ih =>
    intro hmem
    have hn : n ∈ st.receivers := hmem n (List.mem_cons_self n rest)
    simp only [connectLoop, if_pos hn]
    exact ih fun m hm => hmem m (List.mem_cons_of_mem n hm)

/-- A successful connect loop preserves the manager invariant, only grows the
receiver table, registers every requested name, and leaves the disabled flag
alone. -/
theorem connectLoop_ok_spec (menv : MgrEnv) :
    ∀ (names : List String) (st st' : SpoutManager),
      connectLoop menv st names = Except.ok st' → MgrInv st →
      MgrInv st' ∧ st.receivers ⊆ st'.receivers ∧
      (∀ n ∈ names, n ∈ st'.receivers) ∧ st'.disabled = st.disabled := by
  intro names
  induction names with
  | nil =>
    intro st st' hok hinv
    simp only [connectLoop] at hok
    cases hok
    exact ⟨hinv, fun _ hm => hm, fun n hn => absurd hn (List.not_mem_nil n), rfl⟩
  | cons n rest ih =>
    intro st st' hok hinv
    by_cases hn : n ∈ st.receivers
    · simp only [connectLoop, if_pos hn] at hok
      obtain ⟨hinv', hsub, hmem, hdis⟩ := ih st st' hok hinv
      refine ⟨hinv', hsub, ?_, hdis⟩
      intro m hm
      rcases List.mem_cons.mp hm with rfl | hm
      · exact hsub hn
      · exact hmem m hm
    · cases hdev : menv.deviceOk
      · simp only [connectLoop, if_neg hn, create_receiver, hdev] at hok
        cases hok
      · simp only [connectLoop, if_neg hn, create_receiver, hdev] at hok
        have hinv₁ : MgrInv
            { st with
              receivers := st.receivers ++ [n]
              videos := st.videos ++ [n]
              spawned := st.spawned ++ [n] } := by
          refine ⟨?_, ?_, ?_⟩
          · rw [List.nodup_append]
            exact ⟨hinv.1, List.nodup_singleton n,
              fun a ha hb => hn ((List.mem_singleton.mp hb) ▸ ha)⟩
          · rw [hinv.2.1]
          · rw [hinv.2.2]
        obtain ⟨hinv', hsub, hmem, hdis⟩ := ih _ st' hok hinv₁
        refine ⟨hinv', ?_, ?_, hdis⟩
        · intro m hm
          exact hsub (List.mem_append_left [n] hm)
        · intro m hm
          rcases List.mem_cons.mp hm with rfl | hm
          · exact hsub (List.mem_append_right st.receivers (List.mem_singleton.mpr rfl))
          · exact hmem m hm

/-- C6: connecting is idempotent per name — a successful `connect` leaves a
state on which the same request is a no-op, and every requested name has
exactly one receiver entry, one video buffer entry and one spawned worker. -/
theorem connect_idempotent (menv : MgrEnv) (st st' : SpoutManager)
    (names : List String) (n : String)
    (hinv : MgrInv st) (hdis : st.disabled = false)
    (hok : connect menv st names = Except.ok st') (hn : n ∈ names) :
    connect menv st' names = Except.ok st' ∧
    st'.receivers.count n = 1 ∧ st'.videos.count n = 1 ∧
    st'.spawned.count n = 1 := by
  have hne : names ≠ [] := by
    intro hcon
    rw [hcon] at hn
    exact absurd hn (List.not_mem_nil n)
  have hcond : ¬(st.disabled = true ∨ names.length = 0) := by
    rw [hdis]
    simp [List.length_eq_zero, hne]
  simp only [connect, if_neg hcond] at hok
  obtain ⟨hinv', hsub, hmem, hdisab⟩ := connectLoop_ok_spec menv names st st' hok hinv
  have hdis' : st'.disabled = false := hdisab.trans hdis
  have hcond' : ¬(st'.disabled = true ∨ names.length = 0) := by
    rw [hdis']
    simp [List.length_eq_zero, hne]
  have hcnt : st'.receivers.count n = 1 :=
    List.count_eq_one_of_mem hinv'.1 (hmem n hn)
  refine ⟨?_, hcnt, ?_, ?_⟩
  · simp only [connect, if_neg hcond']
    exact connectLoop_all_mem menv st' names hmem
  · rw [hinv'.2.1]
    exact hcnt
  · rw [hinv'.2.2]
    exact hcnt

/-- C6 witness: from the fresh manager with a working device, the request
{"a", "b"} connects both names, the repeated request is a no-op, and "a" has
exactly one receiver, one video buffer and one worker. -/
theorem connect_idempotent_witness :
    MgrInv Spout.new ∧ Spout.new.disabled = false ∧
    connect { deviceOk := true } Spout.new ["a", "b"] =
      Except.ok { receivers := ["a", "b"], videos := ["a", "b"],
                  spawned := ["a", "b"], disabled := false } ∧
    "a" ∈ ["a", "b"] ∧
    (connect { deviceOk := true }
        { receivers := ["a", "b"], videos := ["a", "b"],
          spawned := ["a", "b"], disabled := false } ["a", "b"] =
      Except.ok { receivers := ["a", "b"], videos := ["a", "b"],
                  spawned := ["a", "b"], disabled := false } ∧
     List.count "a" ["a", "b"] = 1 ∧ List.count "a" ["a", "b"] = 1 ∧
     List.count "a" ["a", "b"] = 1) :=
  ⟨by decide, rfl, rfl, by decide,
    connect_idempotent { deviceOk := true } Spout.new
      { receivers := ["a", "b"], videos := ["a", "b"],
        spawned := ["a", "b"], disabled := false } ["a", "b"] "a"
      (by decide) rfl rfl (by decide)⟩

/-! ## Claim C7 -/

/-- C7: once the manager entry is gone, the very next worker iteration exits
the loop and, with it holding the last strong reference, drops the receiver,
releasing the GPU device, the context and any cached texture reference. -/
theorem worker_exit_releases (s : WorkerSys)
    (halive : s.workerAlive = true)
    (hmgr : s.managerEntry = false)
    (hdev : s.recv.d3d_device = true) (hctx : s.recv.d3d_context = true) :
    (workerStep s).workerAlive = false ∧
    (workerStep s).released = some (SpoutReceiver.drop s.recv) ∧
    (SpoutReceiver.drop s.recv).device = true ∧
    (SpoutReceiver.drop s.recv).context = true ∧
    (SpoutReceiver.drop s.recv).texture = s.recv.shared_texture := by
  simp [workerStep, workerExit, receiverStrong, videoStrong, halive, hmgr,
    SpoutReceiver.drop, hdev, hctx]

/-- A live worker for the "Cam" receiver whose manager entry has just been
dropped. -/
def sysC7 : WorkerSys :=
  { managerEntry := false, workerAlive := true, workerOwnsReceiver := true,
    recv := stC5, released := none }

/-- C7 witness: the orphaned worker exits and releases on its next step. -/
theorem worker_exit_releases_witness :
    sysC7.workerAlive = true ∧ sysC7.managerEntry = false ∧
    sysC7.recv.d3d_device = true ∧ sysC7.recv.d3d_context = true ∧
    ((workerStep sysC7).workerAlive = false ∧
     (workerStep sysC7).released = some (SpoutReceiver.drop sysC7.recv) ∧
     (SpoutReceiver.drop sysC7.recv).device = true ∧
     (SpoutReceiver.drop sysC7.recv).context = true ∧
     (SpoutReceiver.drop sysC7.recv).texture = sysC7.recv.shared_texture) :=
  ⟨rfl, rfl, rfl, rfl, worker_exit_releases sysC7 rfl rfl rfl rfl⟩

/-! ## Claim C10 -/

/-- C10: on a publish at a size differing from the last-published size, the
sender first issues `ReleaseSender` and only afterwards re-registers via
`SetSenderName`, before the `SendTexture` call — visible in the ordered
vtable-call trace of both `init` and `send_texture`. -/
theorem sender_resize_release_then_register (senv : SendEnv)
    (st : SpoutLibrarySender) (tex w h : Nat)
    (hinit : st.initialized = true) (hhandle : st.spout_handle = true)
    (hdiff : st.width ≠ w ∨ st.height ≠ h) (hsend : senv.sendOk = true) :
    SpoutLibrarySender.init st w h =
      Except.ok ({ st with width := w, height := h, initialized := true },
        [VCall.releaseSender, VCall.setSenderName]) ∧
    SpoutLibrarySender.send_texture senv st tex w h =
      Except.ok ({ st with width := w, height := h, initialized := true },
        [VCall.releaseSender, VCall.setSenderName, VCall.sendTexture]) := by
  have h1 : SpoutLibrarySender.init st w h =
      Except.ok ({ st with width := w, height := h, initialized := true },
        [VCall.releaseSender, VCall.setSenderName]) := by
    rcases hdiff with hd | hd <;>
      simp [SpoutLibrarySender.init, hinit, hhandle, hd]
  refine ⟨h1, ?_⟩
  rcases hdiff with hd | hd <;>
    simp [SpoutLibrarySender.send_texture, h1, hinit, hhandle, hsend, hd]

/-- A sender already registered at 640x480 with the library loaded. -/
def sndC10 : SpoutLibrarySender :=
  { width := 640, height := 480, initialized := true, spout_handle := true }

/-- C10 witness: publishing at 1280x720 from the 640x480 sender releases the
old identity before re-registering, then sends. -/
theorem sender_resize_release_then_register_witness :
    sndC10.initialized = true ∧ sndC10.spout_handle = true ∧
    (sndC10.width ≠ 1280 ∨ sndC10.height ≠ 720) ∧
    ({ sendOk := true } : SendEnv).sendOk = true ∧
    (SpoutLibrarySender.init sndC10 1280 720 =
      Except.ok ({ sndC10 with width := 1280, height := 720, initialized := true },
        [VCall.releaseSender, VCall.setSenderName]) ∧
     SpoutLibrarySender.send_texture { sendOk := true } sndC10 3 1280 720 =
      Except.ok ({ sndC10 with width := 1280, height := 720, initialized := true },
        [VCall.releaseSender, VCall.setSenderName, VCall.sendTexture])) :=
  ⟨rfl, rfl, by decide, rfl,
    sender_resize_release_then_register { sendOk := true } sndC10 3 1280 720
      rfl rfl (by decide) rfl⟩

end Spout2Proof
